import Mathlib

/-!
Verification development for the vibe-clips repository (src-tauri).
The definitions below are a shallow embedding of the Rust source:
pure string and arithmetic helpers are translated directly, and the
stateful capture / export procedures are translated as functions of an
explicit environment recording the outcomes of the external effects
(process spawns, engine exit statuses, file-system probes).  Machine
floats that hold second counts are modelled as rationals; the integer
cast of milliseconds is modelled by truncation toward zero.
-/

set_option autoImplicit false

/-- Decision of whether the character list `s` ends with `t`; model of Rust
`str::ends_with` with a string pattern. -/
def endsWithL (s t : List Char) : Bool :=
  decide (List.drop (s.length - t.length) s = t)

/-- Model of Rust `str::ends_with` on Lean strings. -/
def strEndsWith (s t : String) : Bool :=
  endsWithL s.data t.data

/-- Decision of whether the list `p` occurs at the head of `s`. -/
def headMatches (p s : List Char) : Bool :=
  decide (List.take p.length s = p)

/-- Worker for `splitOnL`; the first numeric argument is fuel, which
`splitOnL` supplies in a quantity sufficient for full termination. -/
def splitOnAuxL (pat : List Char) : Nat → List Char → List Char → List (List Char)
  | 0, cur, s => [cur.reverse ++ s]
  | fuel + 1, cur, s =>
    if (!pat.isEmpty) && headMatches pat s then
      cur.reverse :: splitOnAuxL pat fuel [] (List.drop pat.length s)
    else
      match s with
      | [] => [cur.reverse]
      | c :: rest => splitOnAuxL pat fuel (c :: cur) rest

/-- Model of Rust `str::split` with a string pattern: left-to-right,
non-overlapping occurrences of `pat` separate the segments. -/
def splitOnL (pat s : List Char) : List (List Char) :=
  splitOnAuxL pat (s.length + 1) [] s

/-- Model of Rust `join` on a list of string segments. -/
def joinWith (sep : List Char) : List (List Char) → List Char
  | [] => []
  | [x] => x
  | x :: y :: rest => x ++ sep ++ joinWith sep (y :: rest)

/-- Model of Rust `str::replace`: every non-overlapping occurrence of `pat`
is replaced by `rep` (split on the pattern, then join with the replacement). -/
def replaceAllL (s pat rep : List Char) : List Char :=
  joinWith rep (splitOnL pat s)

/-- Model of Rust `str::replace` on Lean strings. -/
def replaceAllS (s pat rep : String) : String :=
  String.mk (replaceAllL s.data pat.data rep.data)

/-- Split on a single character, keeping empty segments. -/
def splitCharL (c : Char) (s : List Char) : List (List Char) :=
  match s with
  | [] => [[]]
  | a :: rest =>
    let r := splitCharL c rest
    if a = c then [] :: r
    else
      match r with
      | [] => [[a]]
      | h :: t => (a :: h) :: t

/-- Removal of one trailing carriage return, as Rust `str::lines` performs on
each line terminated by a CRLF sequence. -/
def stripCR (l : List Char) : List Char :=
  match l.reverse with
  | '\r' :: t => t.reverse
  | _ => l

/-- Model of Rust `str::lines`: split on the newline character, drop a final
empty segment (the final line ending is optional), and strip the carriage
return from lines that were terminated by CRLF. -/
def linesOf (s : List Char) : List (List Char) :=
  match (splitCharL '\n' s).reverse with
  | [] => []
  | last :: revFront =>
    let front := (revFront.reverse).map stripCR
    if last = [] then front else front ++ [last]

/-- Model of Rust `str::trim` restricted to the ASCII whitespace characters
covered by `Char.isWhitespace`. -/
def trimL (s : List Char) : List Char :=
  ((s.dropWhile Char.isWhitespace).reverse.dropWhile Char.isWhitespace).reverse

/-- Decimal digit character for a value below ten. -/
def digitCharOf (d : Nat) : Char := Char.ofNat (48 + d)

/-- Worker for `renderNat`; the first argument is fuel. -/
def natDigsAux : Nat → Nat → List Char
  | 0, _ => []
  | fuel + 1, n => if n = 0 then [] else natDigsAux fuel (n / 10) ++ [digitCharOf (n % 10)]

/-- Decimal rendering of a natural number, as the Rust `Display` output of an
unsigned integer. -/
def renderNat (n : Nat) : String :=
  if n = 0 then "0" else String.mk (natDigsAux (n + 1) n)

/-- Two-digit zero-padded rendering of a value below one hundred. -/
def pad2 (n : Nat) : List Char := [digitCharOf (n / 10), digitCharOf (n % 10)]

/-- Three-digit zero-padded rendering of a value below one thousand. -/
def pad3 (n : Nat) : List Char :=
  [digitCharOf (n / 100), digitCharOf (n / 10 % 10), digitCharOf (n % 10)]

/-- Rendering of `z` thousandths with exactly three decimals: the output Rust
produces when formatting the value `z / 1000` with the fixed-precision
specifier of width three, for values that are exact multiples of one
thousandth. -/
def fmt3 (z : Int) : String :=
  (if z < 0 then "-" else "") ++ renderNat (z.natAbs / 1000) ++ "." ++
    String.mk (pad3 (z.natAbs % 1000))

/-- Truncation of a rational toward zero, as the Rust cast from `f64` to `i32`. -/
def truncQ (q : ℚ) : Int := if 0 ≤ q then ⌊q⌋ else ⌈q⌉

/-- Mirror of the Rust `Result` of `String` over a `String` error used by the
capture and export commands. -/
inductive RRes where
  | ok (value : String)
  | err (msg : String)
  deriving DecidableEq, Repr

/-- Mirror of `RecordingSession` (screen_capture.rs lines 14-22).  The two
`Instant` fields are modelled as rational second counts on a shared clock; the
`SystemTime` field and the process id are opaque naturals. -/
structure RecordingSession where
  is_recording : Bool
  output_path : Option String
  start_time : Option Nat
  ffmpeg_process : Option Nat
  audio_start_time : Option ℚ
  video_start_time : Option ℚ
  deriving DecidableEq, Repr

/-- Environment of one call to `start_screen_recording_process`: outcomes of
the external effects (process spawn, audio-capture start) and the clock values
observed at the two capture starts. -/
structure StartEnv where
  spawn_ok : Bool
  pid : Nat
  sys_now : Nat
  video_start : ℚ
  audio_start : ℚ
  audio_ok : Bool
  deriving DecidableEq, Repr

/-- Result of the start transition: the returned value, the session state
after the call, and whether a capture-process spawn was attempted. -/
structure StartOutcome where
  result : RRes
  session : RecordingSession
  spawn_attempted : Bool
  deriving DecidableEq, Repr

/-- Model of `start_screen_recording_process` (screen_capture.rs lines
112-192): reject when a recording is already active, then validate the
output extension, then spawn the video capture process, then start audio
capture, and finally publish the new session state. -/
def start_screen_recording_process (s : RecordingSession) (output_path : String)
    (env : StartEnv) : StartOutcome :=
  if s.is_recording then
    { result := RRes.err ("Recording already in progress"), session := s,
      spawn_attempted := false }
  else if !(strEndsWith output_path (".mp4")) then
    { result := RRes.err ("Output path must end with .mp4"), session := s,
      spawn_attempted := false }
  else if !env.spawn_ok then
    { result := RRes.err ("Failed to start FFmpeg"), session := s,
      spawn_attempted := true }
  else
    { result := RRes.ok ("Recording started (PID: " ++ renderNat env.pid ++ ", " ++
        (if env.audio_ok then ("with WASAPI system audio")
         else ("video only (no audio)")) ++ ")"),
      session :=
        { is_recording := true,
          output_path := some output_path,
          start_time := some env.sys_now,
          ffmpeg_process := some env.pid,
          audio_start_time := if env.audio_ok then some env.audio_start else none,
          video_start_time := some env.video_start },
      spawn_attempted := true }

/-- Offset computation of `stop_screen_recording_process` (screen_capture.rs
lines 215-226): when both start timestamps exist, the signed difference of the
video start and the audio start, obtained through the two guarded
`duration_since` branches; zero when either timestamp is missing. -/
def compute_audio_offset (audio_start_time video_start_time : Option ℚ) : ℚ :=
  match audio_start_time, video_start_time with
  | some a, some v => if a < v then v - a else -(a - v)
  | _, _ => 0

/-- Audio correction selected for the final mux step (screen_capture.rs lines
324-337): trim the head of the audio, delay it by a whole number of
milliseconds, or only pad it to the video duration. -/
inductive AudioFilter where
  | trim (secs : ℚ)
  | delay (ms : Int)
  | padOnly
  deriving DecidableEq, Repr

/-- Selection of the audio correction from the computed offset, following the
threshold test `abs > 0.001` and the sign test of the source. -/
def mux_audio_filter (offset : ℚ) : AudioFilter :=
  if 1 / 1000 < |offset| then
    if 0 < offset then AudioFilter.trim offset
    else AudioFilter.delay (truncQ (-offset * 1000))
  else AudioFilter.padOnly

/-- Environment of one call to `stop_screen_recording_process`: the audio
capture status, the file-system probes, and the outcomes of the duration
probes, the mux invocation, the fallback copy and the video-only rename. -/
structure StopEnv where
  audio_capturing : Bool
  audio_file_exists : Bool
  video_duration_ok : Bool
  video_duration : ℚ
  audio_duration_ok : Bool
  audio_duration : ℚ
  mux_run_ok : Bool
  mux_exit_ok : Bool
  copy_ok : Bool
  rename_ok : Bool
  deriving DecidableEq, Repr

/-- Result of the stop transition: the returned value, the session state after
the call, the computed offset, the audio correction passed to the mux step
when one was built, whether the video-only fallback was used, and the
temporary files removed before returning. -/
structure StopOutcome where
  result : RRes
  session : RecordingSession
  offset : ℚ
  mux_filter : Option AudioFilter
  fallback_to_video_only : Bool
  files_deleted : List String
  deriving DecidableEq, Repr

/-- Session value after the stop transition clears every field
(screen_capture.rs lines 279-284). -/
def cleared_session : RecordingSession :=
  { is_recording := false, output_path := none, start_time := none,
    ffmpeg_process := none, audio_start_time := none, video_start_time := none }

/-- Model of `stop_screen_recording_process` (screen_capture.rs lines
199-378): reject when idle; otherwise compute the offset, clear the session,
and either mux the two temporary streams (falling back to a copy of the
video-only file when the mux exits non-zero) or rename the video-only file
when no audio was captured. -/
def stop_screen_recording_process (s : RecordingSession) (env : StopEnv) : StopOutcome :=
  if !s.is_recording then
    { result := RRes.err ("No recording in progress"), session := s, offset := 0,
      mux_filter := none, fallback_to_video_only := false, files_deleted := [] }
  else
    let output_path := s.output_path.getD ""
    let video_only_path := replaceAllS output_path (".mp4") ("_video.mp4")
    let audio_path := replaceAllS output_path (".mp4") ("_audio.wav")
    let offset := compute_audio_offset s.audio_start_time s.video_start_time
    if env.audio_capturing && env.audio_file_exists then
      if !env.video_duration_ok then
        { result := RRes.err ("Failed to get video duration"), session := cleared_session,
          offset := offset, mux_filter := none, fallback_to_video_only := false,
          files_deleted := [] }
      else if !env.audio_duration_ok then
        { result := RRes.err ("Failed to get audio duration"), session := cleared_session,
          offset := offset, mux_filter := none, fallback_to_video_only := false,
          files_deleted := [] }
      else
        let filt := mux_audio_filter offset
        if !env.mux_run_ok then
          { result := RRes.err ("Failed to mux audio and video"), session := cleared_session,
            offset := offset, mux_filter := some filt, fallback_to_video_only := false,
            files_deleted := [] }
        else if env.mux_exit_ok then
          { result := RRes.ok output_path, session := cleared_session, offset := offset,
            mux_filter := some filt, fallback_to_video_only := false,
            files_deleted := [video_only_path, audio_path] }
        else if env.copy_ok then
          { result := RRes.ok output_path, session := cleared_session, offset := offset,
            mux_filter := some filt, fallback_to_video_only := true,
            files_deleted := [video_only_path, audio_path] }
        else
          { result := RRes.err ("Failed to copy video file"), session := cleared_session,
            offset := offset, mux_filter := some filt, fallback_to_video_only := true,
            files_deleted := [] }
    else
      if env.rename_ok then
        { result := RRes.ok output_path, session := cleared_session, offset := offset,
          mux_filter := none, fallback_to_video_only := false, files_deleted := [] }
      else
        { result := RRes.err ("Failed to rename video file"), session := cleared_session,
          offset := offset, mux_filter := none, fallback_to_video_only := false,
          files_deleted := [] }

/-- Output extension check of `export_video` (lib.rs line 580): the export
path must carry one of the two supported container extensions. -/
def export_path_valid (outputPath : String) : Bool :=
  strEndsWith outputPath (".mp4") || strEndsWith outputPath (".mov")

/-- Mirror of `ClipFilters` (lib.rs lines 84-89). -/
structure ClipFilters where
  brightness : Option Int
  contrast : Option Int
  saturation : Option Int
  deriving DecidableEq, Repr

/-- Mirror of `ClipData` (lib.rs lines 91-99); the three second counts are
modelled as rationals. -/
structure ClipData where
  file_path : String
  trim_start : ℚ
  duration : ℚ
  start_time : ℚ
  track : Int
  filters : Option ClipFilters
  deriving DecidableEq, Repr

/-- Model of `build_eq_filter` (lib.rs lines 736-765).  The source renders
`brightness / 100.0` and `1.0 + value / 100.0` with three fixed decimals; for
integer inputs those values are exact multiples of one thousandth, so they are
rendered here by `fmt3` applied to the value scaled by one thousand. -/
def build_eq_filter (filters : Option ClipFilters) : Option String :=
  match filters with
  | none => none
  | some f =>
    let parts : List String :=
      (match f.brightness with
       | some b => ["brightness=" ++ fmt3 (10 * b)]
       | none => []) ++
      (match f.contrast with
       | some c => ["contrast=" ++ fmt3 (1000 + 10 * c)]
       | none => []) ++
      (match f.saturation with
       | some v => ["saturation=" ++ fmt3 (1000 + 10 * v)]
       | none => [])
    if parts.isEmpty then none
    else some ("eq=" ++ String.intercalate (":") parts)

/-- Picture-in-picture pixel dimensions selected from the size class by
`composite_pip_video` (lib.rs lines 389-394). -/
def pip_dimensions (size : String) : Nat × Nat :=
  if size = "small" then (320, 180)
  else if size = "medium" then (480, 270)
  else if size = "large" then (640, 360)
  else (320, 180)

/-- Overlay position expression built from the configured corner and padding
by `composite_pip_video` (lib.rs lines 397-403). -/
def overlay_position (position : String) (padding : Nat) : String :=
  if position = "top-left" then renderNat padding ++ ":" ++ renderNat padding
  else if position = "top-right" then "W-w-" ++ renderNat padding ++ ":" ++ renderNat padding
  else if position = "bottom-left" then renderNat padding ++ ":H-h-" ++ renderNat padding
  else if position = "bottom-right" then
    "W-w-" ++ renderNat padding ++ ":H-h-" ++ renderNat padding
  else "W-w-" ++ renderNat padding ++ ":H-h-" ++ renderNat padding

/-- Model of `srt_to_ass_time` (lib.rs lines 869-873): replace every comma by
a dot and always succeed. -/
def srt_to_ass_time (srt_time : List Char) : Option (List Char) :=
  some (replaceAllL srt_time [(',')] [('.')])

/-- Model of `parse_srt_time` (lib.rs lines 856-866): split the line on the
arrow separator, require exactly two parts, and convert each trimmed part. -/
def parse_srt_time (time_line : List Char) : Option (List Char × List Char) :=
  match splitOnL ((" --> ").data) time_line with
  | [p0, p1] =>
    match srt_to_ass_time (trimL p0), srt_to_ass_time (trimL p1) with
    | some st, some en => some (st, en)
    | _, _ => none
  | _ => none

/-- Processing of one SRT block inside `convert_srt_to_ass_content` (lib.rs
lines 828-850): the dialogue line emitted for the block, when the block has at
least three lines and a parsable time line. -/
def block_to_dialogue (block : List Char) : Option (List Char) :=
  let lines := linesOf (trimL block)
  if lines.length < 3 then none
  else
    match lines.get? 1 with
    | none => none
    | some time_line =>
      match parse_srt_time time_line with
      | none => none
      | some (st, en) =>
        let text := joinWith (("\\N").data) (lines.drop 2)
        let text := replaceAllL text (("\\").data) (("\\\\").data)
        let text := replaceAllL text [('\x7b')] ['\\', '\x7b']
        let text := replaceAllL text [('\x7d')] ['\\', '\x7d']
        some ((("Dialogue: 0,").data) ++ st ++ [(',')] ++ en ++
          (("Default,,0,0,0,,").data) ++ text ++ [('\n')])

/-- Dialogue lines produced by `convert_srt_to_ass_content`, in emission
order: one candidate per double-newline separated block, blocks that fail the
well-formedness tests being skipped. -/
def dialogue_lines (srt_content : List Char) : List (List Char) :=
  (splitOnL (("\n\n").data) srt_content).filterMap block_to_dialogue

/-- ASS header emitted by `convert_srt_to_ass_content` (lib.rs lines
816-823). -/
def ass_header : List Char :=
  (("[Script Info]\nTitle: VibeClips Subtitles\nScriptType: v4.00+\n\n" ++
    "[V4+ Styles]\n" ++
    "Format: Name, Fontname, Fontsize, PrimaryColour, SecondaryColour, " ++
    "OutlineColour, BackColour, Bold, Italic, Underline, StrikeOut, ScaleX, " ++
    "ScaleY, Spacing, Angle, BorderStyle, Outline, Shadow, Alignment, " ++
    "MarginL, MarginR, MarginV, Encoding\n" ++
    "Style: Default,Arial,24,&Hffffff,&Hffffff,&H0,&H80000000,0,0,0,0,100," ++
    "100,0,0,1,2,1,2,10,10,10,1\n\n" ++
    "[Events]\n" ++
    "Format: Layer, Start, End, Style, Name, MarginL, MarginR, MarginV, " ++
    "Effect, Text\n").data)

/-- Model of `convert_srt_to_ass_content` (lib.rs lines 815-853): the fixed
header followed by the emitted dialogue lines. -/
def convert_srt_to_ass_content (srt_content : List Char) : List Char :=
  ass_header ++ (dialogue_lines srt_content).flatten

/-- Decision of whether a character is a decimal digit. -/
def isDigitC (c : Char) : Bool := decide ('0' ≤ c ∧ c ≤ '9')

/-- Numeric value of a decimal digit character. -/
def dval (c : Char) : Nat := c.toNat - 48

/-- Reading of exactly two decimal digits from the head of a list. -/
def parse2 : List Char → Option (Nat × List Char)
  | a :: b :: rest =>
    if isDigitC a && isDigitC b then some (10 * dval a + dval b, rest) else none
  | _ => none

/-- Reading of exactly three decimal digits from the head of a list. -/
def parse3 : List Char → Option (Nat × List Char)
  | a :: b :: c :: rest =>
    if isDigitC a && isDigitC b && isDigitC c then
      some (100 * dval a + 10 * dval b + dval c, rest)
    else none
  | _ => none

/-- Numeric value in seconds of a timestamp of the shape HH:MM:SS, the given
separator character, and three fractional digits. -/
def timeValWithSep (sep : Char) (t : List Char) : Option ℚ :=
  match parse2 t with
  | none => none
  | some (h, r1) =>
    match r1 with
    | c1 :: r2 =>
      if c1 = ':' then
        match parse2 r2 with
        | none => none
        | some (m, r3) =>
          match r3 with
          | c2 :: r4 =>
            if c2 = ':' then
              match parse2 r4 with
              | none => none
              | some (s, r5) =>
                match r5 with
                | c3 :: r6 =>
                  if c3 = sep then
                    match parse3 r6 with
                    | none => none
                    | some (ms, r7) =>
                      if r7 = [] then
                        some ((h : ℚ) * 3600 + (m : ℚ) * 60 + (s : ℚ) + (ms : ℚ) / 1000)
                      else none
                  else none
                | _ => none
            else none
          | _ => none
      else none
    | _ => none

/-- Numeric value of a comma-separated (SRT) timestamp. -/
def srtTimeVal (t : List Char) : Option ℚ := timeValWithSep ',' t

/-- Numeric value of a dot-separated (ASS) timestamp. -/
def assTimeVal (t : List Char) : Option ℚ := timeValWithSep '.' t

/-- Canonical well-formed fixed-width timestamp built from components, with a
configurable separator before the milliseconds. -/
def renderTime (sep : Char) (h m s ms : Nat) : List Char :=
  pad2 h ++ [(':')] ++ pad2 m ++ [(':')] ++ pad2 s ++ [sep] ++ pad3 ms

/-- Canonical well-formed SRT timestamp HH:MM:SS,mmm. -/
def renderSrtTime (h m s ms : Nat) : List Char := renderTime ',' h m s ms

/-- Canonical well-formed ASS-side timestamp HH:MM:SS.mmm. -/
def renderAssTime (h m s ms : Nat) : List Char := renderTime '.' h m s ms

/-- One external engine invocation of the multi-clip concat export. -/
inductive EngineCall where
  | trim (idx : Nat)
  | concat
  deriving DecidableEq, Repr

/-- Environment of the multi-clip concat branch of `export_video_blocking`:
outcomes of the per-clip trim invocations, of writing the list file, of the
subtitle staging steps, of the concat invocation, and the final file-system
probe of the requested output. -/
structure ConcatEnv where
  trim_run_ok : Nat → Bool
  trim_exit_ok : Nat → Bool
  write_list_ok : Bool
  srt_exists : Bool
  srt_read_ok : Bool
  srt_copy_ok : Bool
  concat_run_ok : Bool
  concat_exit_ok : Bool
  output_file_exists : Bool

/-- Trace of one export attempt: the returned value, the engine invocations
made, the temporary files created on disk, and the temporary files deleted
before returning. -/
structure ExportTrace where
  result : RRes
  engine_calls : List EngineCall
  files_created : List String
  files_deleted : List String
  deriving DecidableEq, Repr

/-- Name of the temporary trimmed file of clip `i` (lib.rs line 1077). -/
def clip_temp_file (i : Nat) : String := "clip_" ++ renderNat i ++ ".mp4"

/-- Name of the generated concat list file (lib.rs line 1138). -/
def concat_list_file : String := "concat_list.txt"

/-- Name of the staged subtitle copy (lib.rs line 1176). -/
def temp_srt_file : String := "temp_subtitles.srt"

/-- Trim loop of the multi-clip export (lib.rs lines 1076-1135): the engine
calls made, the temporary files created by successful trims, and the first
error when a trim invocation fails, which aborts the loop at once. -/
def run_trim_steps (env : ConcatEnv) :
    List ClipData → Nat → List EngineCall × List String × Option String
  | [], _ => ([], [], none)
  | _ :: rest, i =>
    if !env.trim_run_ok i then
      ([EngineCall.trim i], [], some ("Failed to execute FFmpeg for clip " ++ renderNat i))
    else if !env.trim_exit_ok i then
      ([EngineCall.trim i], [], some ("Failed to trim clip " ++ renderNat i))
    else
      let r := run_trim_steps env rest (i + 1)
      (EngineCall.trim i :: r.1, clip_temp_file i :: r.2.1, r.2.2)

/-- Model of the multi-clip concat branch of `export_video_blocking` (lib.rs
lines 1069-1277): trim every clip to a temporary file, write the concat list
file, stage the optional subtitle copy, and run the concat invocation.  Note
the cleanup behaviour of the source: the temporary files are removed in the
branches following the concat invocation, but the early error returns of the
trim loop, of the list-file write and of the subtitle staging remove
nothing. -/
def export_concat_blocking (clips : List ClipData) (outputPath : String)
    (subtitleSrtPath : Option String) (env : ConcatEnv) : ExportTrace :=
  let r := run_trim_steps env clips 0
  match r.2.2 with
  | some e =>
    { result := RRes.err e, engine_calls := r.1, files_created := r.2.1,
      files_deleted := [] }
  | none =>
    if !env.write_list_ok then
      { result := RRes.err ("Failed to write concat file"), engine_calls := r.1,
        files_created := r.2.1, files_deleted := [] }
    else
      let created := r.2.1 ++ [concat_list_file]
      let cleanup := (List.range clips.length).map clip_temp_file ++ [concat_list_file]
      match subtitleSrtPath with
      | some srt_path =>
        if !env.srt_exists then
          { result := RRes.err ("Subtitle file not found: " ++ srt_path),
            engine_calls := r.1, files_created := created, files_deleted := [] }
        else if !env.srt_read_ok then
          { result := RRes.err ("Failed to read SRT"), engine_calls := r.1,
            files_created := created, files_deleted := [] }
        else if !env.srt_copy_ok then
          { result := RRes.err ("Failed to copy SRT"), engine_calls := r.1,
            files_created := created, files_deleted := [] }
        else
          let created := created ++ [temp_srt_file]
          if !env.concat_run_ok then
            { result := RRes.err ("Failed to execute FFmpeg concat"),
              engine_calls := r.1 ++ [EngineCall.concat], files_created := created,
              files_deleted := [] }
          else if !env.concat_exit_ok then
            { result := RRes.err ("FFmpeg concat failed"),
              engine_calls := r.1 ++ [EngineCall.concat], files_created := created,
              files_deleted := cleanup }
          else
            { result := RRes.ok ("Video exported successfully to " ++ outputPath),
              engine_calls := r.1 ++ [EngineCall.concat], files_created := created,
              files_deleted := cleanup }
      | none =>
        if !env.concat_run_ok then
          { result := RRes.err ("Failed to execute FFmpeg concat"),
            engine_calls := r.1 ++ [EngineCall.concat], files_created := created,
            files_deleted := [] }
        else if env.concat_exit_ok then
          { result := RRes.ok ("Video exported successfully to " ++ outputPath),
            engine_calls := r.1 ++ [EngineCall.concat], files_created := created,
            files_deleted := cleanup }
        else
          { result := RRes.err ("Concatenation failed"),
            engine_calls := r.1 ++ [EngineCall.concat], files_created := created,
            files_deleted := cleanup }

/-- Environment of the single-clip branch of `export_video_blocking`. -/
structure SingleEnv where
  input_file_exists : Bool
  srt_exists : Bool
  srt_read_ok : Bool
  srt_copy_ok : Bool
  engine_run_ok : Bool
  engine_exit_ok : Bool
  output_file_exists : Bool
  deriving DecidableEq, Repr

/-- Model of the single-clip branch of `export_video_blocking` (lib.rs lines
904-1067): validate the input, stage the optional subtitle copy, run the
engine, and verify that the requested output file exists on disk before
reporting success. -/
def export_single_clip (clip : ClipData) (outputPath : String)
    (subtitleSrtPath : Option String) (env : SingleEnv) : RRes :=
  if !env.input_file_exists then
    RRes.err ("Input video file not found: " ++ clip.file_path)
  else
    match subtitleSrtPath with
    | none =>
      if !env.engine_run_ok then RRes.err ("Failed to execute FFmpeg")
      else if env.engine_exit_ok then
        if env.output_file_exists then
          RRes.ok ("Video exported successfully to " ++ outputPath)
        else RRes.err ("FFmpeg completed but output file was not created")
      else RRes.err ("FFmpeg failed with exit code")
    | some srt_path =>
      if !env.srt_exists then RRes.err ("Subtitle file not found: " ++ srt_path)
      else if !env.srt_read_ok then RRes.err ("Failed to read SRT")
      else if !env.srt_copy_ok then RRes.err ("Failed to copy SRT")
      else if !env.engine_run_ok then RRes.err ("Failed to execute FFmpeg")
      else if !env.engine_exit_ok then RRes.err ("FFmpeg failed")
      else if env.output_file_exists then
        RRes.ok ("Video exported successfully to " ++ outputPath)
      else RRes.err ("FFmpeg completed but output file was not created")

/-- Concrete active session used by the C1 counterexample: audio started a
half millisecond before video. -/
def c1_session : RecordingSession :=
  { is_recording := true, output_path := some ("rec1.mp4"), start_time := some 0,
    ffmpeg_process := some 11, audio_start_time := some 0,
    video_start_time := some (1 / 2000) }

/-- Stop environment with every external effect succeeding. -/
def c1_stop_env : StopEnv :=
  { audio_capturing := true, audio_file_exists := true, video_duration_ok := true,
    video_duration := 10, audio_duration_ok := true, audio_duration := 10,
    mux_run_ok := true, mux_exit_ok := true, copy_ok := true, rename_ok := true }

/-- Concrete active session used by the C1 witness: audio at second two, video
at second two and a half. -/
def c1_wit_session : RecordingSession :=
  { is_recording := true, output_path := some ("w1.mp4"), start_time := some 0,
    ffmpeg_process := some 12, audio_start_time := some 2,
    video_start_time := some (5 / 2) }

/-- Concrete active session used by the C2 theorems. -/
def c2_session : RecordingSession :=
  { is_recording := true, output_path := some ("rec2.mp4"), start_time := some 0,
    ffmpeg_process := some 13, audio_start_time := some 0,
    video_start_time := some 1 }

/-- Stop environment in which the mux invocation runs but exits non-zero and
the fallback copy succeeds. -/
def c2_env_fail : StopEnv :=
  { audio_capturing := true, audio_file_exists := true, video_duration_ok := true,
    video_duration := 10, audio_duration_ok := true, audio_duration := 10,
    mux_run_ok := true, mux_exit_ok := false, copy_ok := true, rename_ok := true }

/-- Stop environment identical to `c2_env_fail` except that the mux exits
successfully. -/
def c2_env_ok : StopEnv :=
  { c2_env_fail with mux_exit_ok := true }

/-- Concrete active session used by the C7 witness. -/
def c7_active_session : RecordingSession :=
  { is_recording := true, output_path := some ("busy.mp4"), start_time := some 1,
    ffmpeg_process := some 5, audio_start_time := some 0, video_start_time := some 0 }

/-- Start environment with every external effect succeeding. -/
def c7_start_env : StartEnv :=
  { spawn_ok := true, pid := 4, sys_now := 0, video_start := 0, audio_start := 0,
    audio_ok := true }

/-- Sample clip on track zero. -/
def sample_clip : ClipData :=
  { file_path := "a.mp4", trim_start := 0, duration := 1, start_time := 0,
    track := 0, filters := none }

/-- Second sample clip on track zero. -/
def sample_clip2 : ClipData :=
  { file_path := "b.mp4", trim_start := 0, duration := 2, start_time := 1,
    track := 0, filters := none }

/-- Concat environment with every external effect succeeding. -/
def concat_env_all_ok : ConcatEnv :=
  { trim_run_ok := fun _ => true, trim_exit_ok := fun _ => true,
    write_list_ok := true, srt_exists := true, srt_read_ok := true,
    srt_copy_ok := true, concat_run_ok := true, concat_exit_ok := true,
    output_file_exists := true }

/-- Concat environment in which the second trim invocation exits non-zero. -/
def c3_env_trim_fail : ConcatEnv :=
  { concat_env_all_ok with trim_exit_ok := fun i => decide (i = 0) }

/-- Concat environment in which the concat invocation exits non-zero. -/
def c3_env_concat_fail : ConcatEnv :=
  { concat_env_all_ok with concat_exit_ok := false }

/-- Concat environment in which everything succeeds but the requested output
file is missing afterwards. -/
def c5_env_missing_output : ConcatEnv :=
  { concat_env_all_ok with output_file_exists := false }

/-- Single-clip environment in which the engine reports success but the
requested output file is missing afterwards. -/
def c5_single_env : SingleEnv :=
  { input_file_exists := true, srt_exists := true, srt_read_ok := true,
    srt_copy_ok := true, engine_run_ok := true, engine_exit_ok := true,
    output_file_exists := false }

/-- Concrete two-entry SRT content used by the C8 witness. -/
def c8_content : List Char :=
  (("1\n00:00:00,000 --> 00:00:02,000\nHello\n\n" ++
    "2\n00:00:02,500 --> 00:00:04,000\nWorld").data)

theorem compute_audio_offset_eq (a v : ℚ) :
    compute_audio_offset (some a) (some v) = v - a := by
  simp only [compute_audio_offset]
  split <;> ring

theorem mux_audio_filter_pos {q : ℚ} (h : 1 / 1000 < q) :
    mux_audio_filter q = AudioFilter.trim q := by
  have h0 : (0 : ℚ) < q := lt_trans (by norm_num) h
  rw [mux_audio_filter, if_pos, if_pos h0]
  rwa [abs_of_pos h0]

theorem mux_audio_filter_neg {q : ℚ} (h : q < -(1 / 1000)) :
    mux_audio_filter q = AudioFilter.delay (truncQ (-q * 1000)) := by
  have h0 : ¬ (0 : ℚ) < q := by linarith
  rw [mux_audio_filter, if_pos, if_neg h0]
  rw [abs_of_neg (by linarith)]
  linarith

theorem mux_audio_filter_small {q : ℚ} (h : |q| ≤ 1 / 1000) :
    mux_audio_filter q = AudioFilter.padOnly := by
  rw [mux_audio_filter, if_neg]
  exact not_lt.mpr h

theorem stop_offset_eq (s : RecordingSession) (env : StopEnv) (a v : ℚ)
    (hrec : s.is_recording = true) (ha : s.audio_start_time = some a)
    (hv : s.video_start_time = some v) :
    (stop_screen_recording_process s env).offset = v - a := by
  have hoff : compute_audio_offset s.audio_start_time s.video_start_time = v - a := by
    rw [ha, hv, compute_audio_offset_eq]
  simp only [stop_screen_recording_process, hrec, Bool.not_true, Bool.false_eq_true,
    if_false, hoff]
  split_ifs <;> rfl

theorem stop_mux_filter_eq (s : RecordingSession) (env : StopEnv)
    (hrec : s.is_recording = true) (hcap : env.audio_capturing = true)
    (hex : env.audio_file_exists = true) (hvd : env.video_duration_ok = true)
    (had : env.audio_duration_ok = true) :
    (stop_screen_recording_process s env).mux_filter =
      some (mux_audio_filter
        (compute_audio_offset s.audio_start_time s.video_start_time)) := by
  simp only [stop_screen_recording_process, hrec, hcap, hex, hvd, had,
    Bool.not_true, Bool.false_eq_true, if_false, Bool.and_self, if_true]
  split_ifs <;> rfl

/-- Stop environment with every external effect succeeding, used by the C7
witness. -/
def c7_stop_env : StopEnv :=
  { audio_capturing := true, audio_file_exists := true, video_duration_ok := true,
    video_duration := 3, audio_duration_ok := true, audio_duration := 3,
    mux_run_ok := true, mux_exit_ok := true, copy_ok := true, rename_ok := true }

/-- C1 (amended): for every stop of a capture session in which both a
video-start and an audio-start timestamp were recorded, the computed offset
equals video-start minus audio-start in seconds (signed); the mux step trims
the audio head by the offset when the offset exceeds the one-millisecond
threshold of the source, left-pads the audio with the offset magnitude
truncated to whole milliseconds of silence when the offset is below minus one
millisecond, and applies no head correction (padding only) when the offset
magnitude is at most one millisecond. -/
theorem C1_offset_sign_and_correction (s : RecordingSession) (env : StopEnv) (a v : ℚ)
    (hrec : s.is_recording = true) (ha : s.audio_start_time = some a)
    (hv : s.video_start_time = some v) (hcap : env.audio_capturing = true)
    (hex : env.audio_file_exists = true) (hvd : env.video_duration_ok = true)
    (had : env.audio_duration_ok = true) :
    (stop_screen_recording_process s env).offset = v - a ∧
    (1 / 1000 < v - a →
      (stop_screen_recording_process s env).mux_filter =
        some (AudioFilter.trim (v - a))) ∧
    (v - a < -(1 / 1000) →
      (stop_screen_recording_process s env).mux_filter =
        some (AudioFilter.delay (truncQ (-(v - a) * 1000)))) ∧
    (|v - a| ≤ 1 / 1000 →
      (stop_screen_recording_process s env).mux_filter = some AudioFilter.padOnly) := by
  have h1 := stop_offset_eq s env a v hrec ha hv
  have h2 := stop_mux_filter_eq s env hrec hcap hex hvd had
  rw [ha, hv, compute_audio_offset_eq] at h2
  refine ⟨h1, ?_, ?_, ?_⟩ <;> intro hq
  · rw [h2, mux_audio_filter_pos hq]
  · rw [h2, mux_audio_filter_neg hq]
  · rw [h2, mux_audio_filter_small hq]

/-- Witness for C1 at a concrete session with audio at second two and video at
second two and a half. -/
theorem C1_offset_sign_and_correction_witness :
    (1 : ℚ) / 1000 < (5 : ℚ) / 2 - 2 ∧
    (stop_screen_recording_process c1_wit_session c1_stop_env).mux_filter =
      some (AudioFilter.trim ((5 : ℚ) / 2 - 2)) :=
  ⟨by norm_num,
   (C1_offset_sign_and_correction c1_wit_session c1_stop_env 2 (5 / 2)
      rfl rfl rfl rfl rfl rfl rfl).2.1 (by norm_num)⟩

/-- C1 counterexample: with audio started half a millisecond before video the
computed offset is positive, yet the mux step applies no head trim, because
the source only corrects offsets whose magnitude exceeds one millisecond. -/
theorem C1_positive_offset_without_trim :
    (0 : ℚ) < (stop_screen_recording_process c1_session c1_stop_env).offset ∧
    (stop_screen_recording_process c1_session c1_stop_env).mux_filter =
      some AudioFilter.padOnly := by
  have h1 := stop_offset_eq c1_session c1_stop_env 0 (1 / 2000) rfl rfl rfl
  have h2 := stop_mux_filter_eq c1_session c1_stop_env rfl rfl rfl rfl rfl
  rw [show c1_session.audio_start_time = some 0 from rfl,
    show c1_session.video_start_time = some (1 / 2000) from rfl,
    compute_audio_offset_eq] at h2
  constructor
  · rw [h1]; norm_num
  · rw [h2, show (1 : ℚ) / 2000 - 0 = 1 / 2000 from by ring,
      mux_audio_filter_small (by rw [abs_of_pos (by norm_num)]; norm_num)]

/-- C2 (amended): whenever the final capture mux step fails with a non-zero
engine exit and the fallback copy succeeds, the stop operation does not fail
the whole recording but falls back to the video-only file as the output,
returning the output path through the normal success path; the caller is not
informed that muxing failed, the failure being only logged. -/
theorem C2_mux_failure_silent_fallback (s : RecordingSession) (env : StopEnv)
    (hrec : s.is_recording = true) (hcap : env.audio_capturing = true)
    (hex : env.audio_file_exists = true) (hvd : env.video_duration_ok = true)
    (had : env.audio_duration_ok = true) (hmr : env.mux_run_ok = true)
    (hexit : env.mux_exit_ok = false) (hcopy : env.copy_ok = true) :
    (stop_screen_recording_process s env).result = RRes.ok (s.output_path.getD "") ∧
    (stop_screen_recording_process s env).fallback_to_video_only = true := by
  simp [stop_screen_recording_process, hrec, hcap, hex, hvd, had, hmr, hexit, hcopy]

/-- Witness for C2 at a concrete session and an environment in which the mux
exits non-zero. -/
theorem C2_mux_failure_silent_fallback_witness :
    (c2_env_fail.mux_exit_ok = false) ∧
    (stop_screen_recording_process c2_session c2_env_fail).result =
      RRes.ok (c2_session.output_path.getD "") ∧
    (stop_screen_recording_process c2_session c2_env_fail).fallback_to_video_only = true :=
  ⟨rfl,
   (C2_mux_failure_silent_fallback c2_session c2_env_fail
      rfl rfl rfl rfl rfl rfl rfl rfl).1,
   (C2_mux_failure_silent_fallback c2_session c2_env_fail
      rfl rfl rfl rfl rfl rfl rfl rfl).2⟩

/-- C2 counterexample: when the mux step fails and the fallback copy is used,
the returned value is identical to the value returned when the mux step
succeeds, so the caller is not informed through any distinct path that muxing
failed. -/
theorem C2_caller_not_informed :
    (stop_screen_recording_process c2_session c2_env_fail).fallback_to_video_only = true ∧
    (stop_screen_recording_process c2_session c2_env_fail).result =
      (stop_screen_recording_process c2_session c2_env_ok).result := by
  constructor
  · simp [stop_screen_recording_process, c2_session, c2_env_fail]
  · simp [stop_screen_recording_process, c2_session, c2_env_fail, c2_env_ok]

/-- C4 (amended): for the offset instance with video-start T and audio-start
T plus a positive delta exceeding the one-millisecond threshold, the computed
offset equals minus delta and the correction path left-pads the audio with
delta seconds of silence truncated to whole milliseconds; for the instance
with audio-start T and video-start T plus delta, the computed offset equals
delta and the correction path trims delta seconds from the audio head. -/
theorem C4_offset_instances (T d : ℚ) (hd : 1 / 1000 < d) :
    compute_audio_offset (some (T + d)) (some T) = -d ∧
    mux_audio_filter (-d) = AudioFilter.delay (truncQ (d * 1000)) ∧
    compute_audio_offset (some T) (some (T + d)) = d ∧
    mux_audio_filter d = AudioFilter.trim d := by
  refine ⟨?_, ?_, ?_, mux_audio_filter_pos hd⟩
  · rw [compute_audio_offset_eq]; ring
  · have h := @mux_audio_filter_neg (-d) (by linarith)
    rw [show -(-d) * 1000 = d * 1000 from by ring] at h
    exact h
  · rw [compute_audio_offset_eq]; ring

/-- Witness for C4 at T zero and delta one. -/
theorem C4_offset_instances_witness :
    (1 : ℚ) / 1000 < 1 ∧ compute_audio_offset (some ((0 : ℚ) + 1)) (some 0) = -1 :=
  ⟨by norm_num, (C4_offset_instances 0 1 (by norm_num)).1⟩

/-- C4 counterexample: with video-start zero and audio-start one (delta one),
the computed offset is minus one, not plus one as the claim states, and the
correction path delays the audio by one thousand milliseconds of silence
instead of trimming it. -/
theorem C4_swapped_cases :
    compute_audio_offset (some ((0 : ℚ) + 1)) (some 0) = -1 ∧
    ((-1 : ℚ) ≠ 1) ∧
    mux_audio_filter (-1) = AudioFilter.delay 1000 := by
  refine ⟨?_, by norm_num, ?_⟩
  · rw [compute_audio_offset_eq]; ring
  · have h := @mux_audio_filter_neg (-1) (by norm_num)
    rw [h]
    norm_num [truncQ]

/-- C7: at most one capture session is active at a time: starting while a
session is active returns the busy error and changes nothing, with no capture
process spawned, and stopping while no session is active returns the
not-active error and changes nothing. -/
theorem C7_single_active_session (s : RecordingSession) (p : String)
    (es : StartEnv) (et : StopEnv) :
    (s.is_recording = true →
      start_screen_recording_process s p es =
        { result := RRes.err ("Recording already in progress"), session := s,
          spawn_attempted := false }) ∧
    (s.is_recording = false →
      stop_screen_recording_process s et =
        { result := RRes.err ("No recording in progress"), session := s, offset := 0,
          mux_filter := none, fallback_to_video_only := false, files_deleted := [] }) := by
  constructor
  · intro h; simp [start_screen_recording_process, h]
  · intro h; simp [stop_screen_recording_process, h]

/-- Witness for C7: a busy start on an active session and a stop on the idle
session, both at concrete values. -/
theorem C7_single_active_session_witness :
    (c7_active_session.is_recording = true) ∧
    start_screen_recording_process c7_active_session ("x.mp4") c7_start_env =
      { result := RRes.err ("Recording already in progress"),
        session := c7_active_session, spawn_attempted := false } ∧
    stop_screen_recording_process cleared_session c7_stop_env =
      { result := RRes.err ("No recording in progress"), session := cleared_session,
        offset := 0, mux_filter := none, fallback_to_video_only := false,
        files_deleted := [] } :=
  ⟨rfl,
   (C7_single_active_session c7_active_session ("x.mp4") c7_start_env c7_stop_env).1 rfl,
   (C7_single_active_session cleared_session ("x.mp4") c7_start_env c7_stop_env).2 rfl⟩

/-- C9: starting a screen recording with an output path that does not end in
the mp4 extension fails with an error before any capture process is spawned
and before any session state changes; the recording path accepts only the mp4
extension while the export path validation accepts both the mp4 and the mov
extensions. -/
theorem C9_recording_extension_check (s : RecordingSession) (p q : String)
    (es : StartEnv) (hidle : s.is_recording = false)
    (hp : strEndsWith p (".mp4") = false) :
    start_screen_recording_process s p es =
      { result := RRes.err ("Output path must end with .mp4"), session := s,
        spawn_attempted := false } ∧
    export_path_valid q = (strEndsWith q (".mp4") || strEndsWith q (".mov")) ∧
    export_path_valid ("clip.mov") = true ∧
    strEndsWith ("clip.mov") (".mp4") = false := by
  refine ⟨?_, rfl, by decide, by decide⟩
  simp [start_screen_recording_process, hidle, hp]

/-- Witness for C9 at a concrete path with a rejected extension. -/
theorem C9_recording_extension_check_witness :
    (strEndsWith ("out.avi") (".mp4") = false) ∧
    start_screen_recording_process cleared_session ("out.avi") c7_start_env =
      { result := RRes.err ("Output path must end with .mp4"),
        session := cleared_session, spawn_attempted := false } :=
  ⟨by decide,
   (C9_recording_extension_check cleared_session ("out.avi") ("z") c7_start_env
      rfl (by decide)).1⟩

theorem run_trim_steps_all_ok (env : ConcatEnv)
    (hrun : ∀ i, env.trim_run_ok i = true) (hexit : ∀ i, env.trim_exit_ok i = true) :
    ∀ (clips : List ClipData) (i : Nat),
      run_trim_steps env clips i =
        ((List.range' i clips.length).map EngineCall.trim,
         (List.range' i clips.length).map clip_temp_file, none) := by
  intro clips
  induction clips with
  | nil => intro i; simp [run_trim_steps, List.range']
  | cons c rest ih =>
    intro i
    simp [run_trim_steps, hrun i, hexit i, ih (i + 1), List.range']

/-- C3 (amended): for every export of N>1 clips all on track 0 with no
overlays and no subtitles, when every per-clip trim succeeds the plan performs
N per-clip trim invocations plus exactly one concatenation invocation and
creates exactly N+1 temporary files (N trimmed clip files plus one concat-list
file), and every one of those temporary files is deleted before the operation
returns, both when the concatenation succeeds and when it fails; however, when
a per-clip trim step fails, the operation returns the trim error without
deleting the temporary files already created. -/
theorem C3_concat_plan_and_cleanup (clips : List ClipData) (outP : String)
    (env env2 : ConcatEnv) (e : String)
    (hn : 1 < clips.length)
    (hrun : ∀ i, env.trim_run_ok i = true) (hexit : ∀ i, env.trim_exit_ok i = true)
    (hw : env.write_list_ok = true) (hcr : env.concat_run_ok = true)
    (htf : (run_trim_steps env2 clips 0).2.2 = some e) :
    ((export_concat_blocking clips outP none env).engine_calls =
      (List.range clips.length).map EngineCall.trim ++ [EngineCall.concat]) ∧
    ((export_concat_blocking clips outP none env).files_created =
      (List.range clips.length).map clip_temp_file ++ [concat_list_file]) ∧
    ((export_concat_blocking clips outP none env).files_created.length =
      clips.length + 1) ∧
    ((export_concat_blocking clips outP none env).files_deleted =
      (export_concat_blocking clips outP none env).files_created) ∧
    (env.concat_exit_ok = true →
      (export_concat_blocking clips outP none env).result =
        RRes.ok ("Video exported successfully to " ++ outP)) ∧
    (env.concat_exit_ok = false →
      (export_concat_blocking clips outP none env).result =
        RRes.err ("Concatenation failed")) ∧
    ((export_concat_blocking clips outP none env2).result = RRes.err e) ∧
    ((export_concat_blocking clips outP none env2).files_deleted = []) := by
  have hr := run_trim_steps_all_ok env hrun hexit clips 0
  have hrange : List.range clips.length = List.range' 0 clips.length :=
    List.range_eq_range' clips.length
  refine ⟨?_, ?_, ?_, ?_, ?_, ?_, ?_, ?_⟩
  · cases hce : env.concat_exit_ok <;>
      simp [export_concat_blocking, hr, hw, hcr, hce, hrange]
  · cases hce : env.concat_exit_ok <;>
      simp [export_concat_blocking, hr, hw, hcr, hce, hrange]
  · cases hce : env.concat_exit_ok <;>
      simp [export_concat_blocking, hr, hw, hcr, hce, hrange]
  · cases hce : env.concat_exit_ok <;>
      simp [export_concat_blocking, hr, hw, hcr, hce, hrange]
  · intro hce; simp [export_concat_blocking, hr, hw, hcr, hce]
  · intro hce; simp [export_concat_blocking, hr, hw, hcr, hce]
  · simp [export_concat_blocking, htf]
  · simp [export_concat_blocking, htf]

/-- Witness for C3 at two concrete clips: full cleanup in the all-success
environment, and no cleanup when the second trim fails. -/
theorem C3_concat_plan_and_cleanup_witness :
    (1 < ([sample_clip, sample_clip2] : List ClipData).length) ∧
    ((export_concat_blocking [sample_clip, sample_clip2] ("out.mp4") none
        concat_env_all_ok).files_deleted =
      (export_concat_blocking [sample_clip, sample_clip2] ("out.mp4") none
        concat_env_all_ok).files_created) ∧
    ((export_concat_blocking [sample_clip, sample_clip2] ("out.mp4") none
        c3_env_trim_fail).files_deleted = []) :=
  ⟨by decide,
   (C3_concat_plan_and_cleanup [sample_clip, sample_clip2] ("out.mp4")
      concat_env_all_ok c3_env_trim_fail ("Failed to trim clip 1") (by decide)
      (fun _ => rfl) (fun _ => rfl) rfl rfl (by decide)).2.2.2.1,
   (C3_concat_plan_and_cleanup [sample_clip, sample_clip2] ("out.mp4")
      concat_env_all_ok c3_env_trim_fail ("Failed to trim clip 1") (by decide)
      (fun _ => rfl) (fun _ => rfl) rfl rfl (by decide)).2.2.2.2.2.2.2⟩

/-- C3 counterexample: with two clips and the second trim invocation failing,
the first temporary clip file has been created but the export returns the trim
error without deleting anything. -/
theorem C3_trim_failure_leaks_temp_files :
    ((export_concat_blocking [sample_clip, sample_clip2] ("out.mp4") none
        c3_env_trim_fail).files_created = [clip_temp_file 0]) ∧
    ((export_concat_blocking [sample_clip, sample_clip2] ("out.mp4") none
        c3_env_trim_fail).files_deleted = []) ∧
    ((export_concat_blocking [sample_clip, sample_clip2] ("out.mp4") none
        c3_env_trim_fail).result = RRes.err ("Failed to trim clip 1")) := by
  decide

/-- C5 (amended): success is verified against the file system only by the
single-clip strategy: there, an engine invocation that reports success while
the requested output file is missing is returned to the caller as an error,
and success is reported when the file exists; the multi-clip concat strategy
instead reports success based solely on the engine exit status, never
consulting the file system for the requested output. -/
theorem C5_output_existence_check (clip : ClipData) (outP : String) (e : SingleEnv)
    (clips : List ClipData) (env : ConcatEnv)
    (hin : e.input_file_exists = true) (hrun0 : e.engine_run_ok = true)
    (hexit0 : e.engine_exit_ok = true)
    (hrun : ∀ i, env.trim_run_ok i = true) (hexit : ∀ i, env.trim_exit_ok i = true)
    (hw : env.write_list_ok = true) (hcr : env.concat_run_ok = true)
    (hce : env.concat_exit_ok = true) :
    (e.output_file_exists = false →
      export_single_clip clip outP none e =
        RRes.err ("FFmpeg completed but output file was not created")) ∧
    (e.output_file_exists = true →
      export_single_clip clip outP none e =
        RRes.ok ("Video exported successfully to " ++ outP)) ∧
    ((export_concat_blocking clips outP none env).result =
      RRes.ok ("Video exported successfully to " ++ outP)) := by
  have hr := run_trim_steps_all_ok env hrun hexit clips 0
  refine ⟨?_, ?_, ?_⟩
  · intro h; simp [export_single_clip, hin, hrun0, hexit0, h]
  · intro h; simp [export_single_clip, hin, hrun0, hexit0, h]
  · simp [export_concat_blocking, hr, hw, hcr, hce]

/-- Witness for C5: the single-clip strategy errors on a missing output even
with a successful engine exit, while the concat strategy reports success with
the output file missing. -/
theorem C5_output_existence_check_witness :
    (c5_single_env.output_file_exists = false) ∧
    (export_single_clip sample_clip ("out.mp4") none c5_single_env =
      RRes.err ("FFmpeg completed but output file was not created")) ∧
    ((export_concat_blocking [sample_clip, sample_clip2] ("out.mp4") none
        c5_env_missing_output).result =
      RRes.ok ("Video exported successfully to " ++ "out.mp4")) :=
  ⟨rfl,
   (C5_output_existence_check sample_clip ("out.mp4") c5_single_env
      [sample_clip, sample_clip2] c5_env_missing_output rfl rfl rfl
      (fun _ => rfl) (fun _ => rfl) rfl rfl rfl).1 rfl,
   (C5_output_existence_check sample_clip ("out.mp4") c5_single_env
      [sample_clip, sample_clip2] c5_env_missing_output rfl rfl rfl
      (fun _ => rfl) (fun _ => rfl) rfl rfl rfl).2.2⟩

/-- C5 counterexample: in the multi-clip concat strategy, an engine invocation
that exits successfully while the requested output file is missing is still
reported to the caller as a success. -/
theorem C5_concat_success_without_output_file :
    (c5_env_missing_output.output_file_exists = false) ∧
    ((export_concat_blocking [sample_clip, sample_clip2] ("out.mp4") none
        c5_env_missing_output).result =
      RRes.ok ("Video exported successfully to out.mp4")) := by
  decide

/-- C6: the per-clip color-filter mapping is a pure deterministic function of
the three optional inputs: brightness b is rendered as b/100 (in thousandths:
10b, within [-1000, 1000] i.e. [-1, 1] for b in [-100, 100]); contrast and
saturation v are rendered as 1 + v/100 (in thousandths: 1000 + 10v, within
[0, 2000] i.e. [0, 2]); input 0 maps to the no-op adjustment values, inputs
100 and -100 map exactly to the documented bounds, and compiling the same
filters twice yields identical filter text. -/
theorem C6_eq_filter_mapping (f : Option ClipFilters) (b c v : Int)
    (hb1 : -100 ≤ b) (hb2 : b ≤ 100) (hc1 : -100 ≤ c) (hc2 : c ≤ 100)
    (hv1 : -100 ≤ v) (hv2 : v ≤ 100) :
    (build_eq_filter f = build_eq_filter f) ∧
    (build_eq_filter (some ⟨some b, none, none⟩) =
        some ("eq=brightness=" ++ fmt3 (10 * b)) ∧
      -1000 ≤ 10 * b ∧ 10 * b ≤ 1000) ∧
    (build_eq_filter (some ⟨none, some c, none⟩) =
        some ("eq=contrast=" ++ fmt3 (1000 + 10 * c)) ∧
      0 ≤ 1000 + 10 * c ∧ 1000 + 10 * c ≤ 2000) ∧
    (build_eq_filter (some ⟨none, none, some v⟩) =
        some ("eq=saturation=" ++ fmt3 (1000 + 10 * v)) ∧
      0 ≤ 1000 + 10 * v ∧ 1000 + 10 * v ≤ 2000) ∧
    (build_eq_filter (some ⟨some 0, some 0, some 0⟩) =
      some ("eq=brightness=0.000:contrast=1.000:saturation=1.000")) ∧
    (build_eq_filter (some ⟨some 100, some 100, some 100⟩) =
      some ("eq=brightness=1.000:contrast=2.000:saturation=2.000")) ∧
    (build_eq_filter (some ⟨some (-100), some (-100), some (-100)⟩) =
      some ("eq=brightness=-1.000:contrast=0.000:saturation=0.000")) := by
  refine ⟨rfl, ⟨?_, by linarith, by linarith⟩, ⟨?_, by linarith, by linarith⟩,
    ⟨?_, by linarith, by linarith⟩, by decide, by decide, by decide⟩
  · simp [build_eq_filter, String.intercalate, String.intercalate.go]
    rw [← String.append_assoc]
    congr 1
  · simp [build_eq_filter, String.intercalate, String.intercalate.go]
    rw [← String.append_assoc]
    congr 1
  · simp [build_eq_filter, String.intercalate, String.intercalate.go]
    rw [← String.append_assoc]
    congr 1

/-- Witness for C6 at brightness, contrast and saturation fifty. -/
theorem C6_eq_filter_mapping_witness :
    ((-100 : Int) ≤ 50 ∧ (50 : Int) ≤ 100) ∧
    build_eq_filter (some ⟨some 50, none, none⟩) =
      some ("eq=brightness=" ++ fmt3 (10 * 50)) :=
  ⟨by decide,
   ((C6_eq_filter_mapping none 50 50 50 (by decide) (by decide) (by decide)
      (by decide) (by decide) (by decide)).2.1).1⟩

/-- C10: the picture-in-picture compositor never fails on an unrecognized
configuration string: every size-class string other than small, medium and
large is given the small dimensions 320 by 180, and every position string
other than the four corner names places the overlay at the bottom-right
corner expression. -/
theorem C10_pip_defaults (size pos : String) (pad : Nat)
    (hs1 : size ≠ "small") (hs2 : size ≠ "medium") (hs3 : size ≠ "large")
    (hp1 : pos ≠ "top-left") (hp2 : pos ≠ "top-right")
    (hp3 : pos ≠ "bottom-left") (hp4 : pos ≠ "bottom-right") :
    pip_dimensions size = (320, 180) ∧
    pip_dimensions ("small") = (320, 180) ∧
    overlay_position pos pad = overlay_position ("bottom-right") pad ∧
    overlay_position pos pad =
      "W-w-" ++ renderNat pad ++ ":H-h-" ++ renderNat pad := by
  refine ⟨?_, by decide, ?_, ?_⟩
  · simp [pip_dimensions, hs1, hs2, hs3]
  · simp [overlay_position, hp1, hp2, hp3, hp4]
  · simp [overlay_position, hp1, hp2, hp3, hp4]

/-- Witness for C10 at unrecognized size and position strings. -/
theorem C10_pip_defaults_witness :
    (("tiny" : String) ≠ "small") ∧
    pip_dimensions ("tiny") = (320, 180) ∧
    overlay_position ("middle") 20 =
      "W-w-" ++ renderNat 20 ++ ":H-h-" ++ renderNat 20 :=
  ⟨by decide,
   (C10_pip_defaults ("tiny") ("middle") 20 (by decide) (by decide) (by decide)
      (by decide) (by decide) (by decide) (by decide)).1,
   (C10_pip_defaults ("tiny") ("middle") 20 (by decide) (by decide) (by decide)
      (by decide) (by decide) (by decide) (by decide)).2.2.2⟩

theorem joinWith_cons_of_ne (sep x : List Char) {l : List (List Char)} (h : l ≠ []) :
    joinWith sep (x :: l) = x ++ sep ++ joinWith sep l := by
  cases l with
  | nil => exact absurd rfl h
  | cons y t => rfl

theorem splitOnAuxL_ne_nil (pat : List Char) :
    ∀ (fuel : Nat) (cur s : List Char), splitOnAuxL pat fuel cur s ≠ [] := by
  intro fuel
  induction fuel with
  | zero => intro cur s; simp [splitOnAuxL]
  | succ n ih =>
    intro cur s
    simp only [splitOnAuxL]
    split
    · simp
    · split
      · simp
      · exact ih _ _

theorem splitOnAuxL_single (c d : Char) :
    ∀ (fuel : Nat) (cur s : List Char), s.length < fuel →
      joinWith [d] (splitOnAuxL [c] fuel cur s) =
        cur.reverse ++ s.map (fun x => if x = c then d else x) := by
  intro fuel
  induction fuel with
  | zero => intro cur s h; exact absurd h (Nat.not_lt_zero _)
  | succ n ih =>
    intro cur s h
    cases s with
    | nil => simp [splitOnAuxL, headMatches, joinWith]
    | cons a rest =>
      by_cases hac : a = c
      · subst hac
        have hm : headMatches [a] (a :: rest) = true := by simp [headMatches]
        rw [show splitOnAuxL [a] (n + 1) cur (a :: rest) =
            cur.reverse :: splitOnAuxL [a] n [] (List.drop 1 (a :: rest)) from by
          simp [splitOnAuxL, hm]]
        rw [joinWith_cons_of_ne _ _ (splitOnAuxL_ne_nil _ _ _ _)]
        have hr : rest.length < n := by simpa using h
        simp [ih [] rest hr]
      · have hm : headMatches [c] (a :: rest) = false := by
          simp [headMatches, hac]
        rw [show splitOnAuxL [c] (n + 1) cur (a :: rest) =
            splitOnAuxL [c] n (a :: cur) rest from by
          simp [splitOnAuxL, hm]]
        have hr : rest.length < n := by simpa using h
        simp [ih (a :: cur) rest hr, hac]

theorem replace_single (c d : Char) (s : List Char) :
    replaceAllL s [c] [d] = s.map (fun x => if x = c then d else x) := by
  have hx := splitOnAuxL_single c d (s.length + 1) [] s (by omega)
  simpa [replaceAllL, splitOnL] using hx

theorem isDigitC_digitCharOf : ∀ d, d < 10 → isDigitC (digitCharOf d) = true := by decide

theorem dval_digitCharOf : ∀ d, d < 10 → dval (digitCharOf d) = d := by decide

theorem digitCharOf_map_comma :
    ∀ d, d < 10 →
      (if digitCharOf d = ',' then ('.') else digitCharOf d) = digitCharOf d := by
  decide

theorem timeVal_render (sep : Char) (h m s ms : Nat)
    (hh : h < 100) (hm : m < 100) (hs : s < 100) (hms : ms < 1000) :
    timeValWithSep sep (renderTime sep h m s ms) =
      some ((h : ℚ) * 3600 + (m : ℚ) * 60 + (s : ℚ) + (ms : ℚ) / 1000) := by
  have h1 : h / 10 < 10 := by omega
  have h2 : h % 10 < 10 := by omega
  have m1 : m / 10 < 10 := by omega
  have m2 : m % 10 < 10 := by omega
  have s1 : s / 10 < 10 := by omega
  have s2 : s % 10 < 10 := by omega
  have t1 : ms / 100 < 10 := by omega
  have t2 : ms / 10 % 10 < 10 := by omega
  have t3 : ms % 10 < 10 := by omega
  have eh : (h : ℚ) = 10 * ((h / 10 : ℕ) : ℚ) + ((h % 10 : ℕ) : ℚ) := by
    exact_mod_cast congrArg (Nat.cast (R := ℚ)) (by omega : h = 10 * (h / 10) + h % 10)
  have em : (m : ℚ) = 10 * ((m / 10 : ℕ) : ℚ) + ((m % 10 : ℕ) : ℚ) := by
    exact_mod_cast congrArg (Nat.cast (R := ℚ)) (by omega : m = 10 * (m / 10) + m % 10)
  have es : (s : ℚ) = 10 * ((s / 10 : ℕ) : ℚ) + ((s % 10 : ℕ) : ℚ) := by
    exact_mod_cast congrArg (Nat.cast (R := ℚ)) (by omega : s = 10 * (s / 10) + s % 10)
  have ems : (ms : ℚ) =
      100 * ((ms / 100 : ℕ) : ℚ) + 10 * ((ms / 10 % 10 : ℕ) : ℚ) + ((ms % 10 : ℕ) : ℚ) := by
    exact_mod_cast congrArg (Nat.cast (R := ℚ))
      (by omega : ms = 100 * (ms / 100) + 10 * (ms / 10 % 10) + ms % 10)
  simp +decide [renderTime, pad2, pad3, timeValWithSep, parse2, parse3,
    isDigitC_digitCharOf _ h1, isDigitC_digitCharOf _ h2,
    isDigitC_digitCharOf _ m1, isDigitC_digitCharOf _ m2,
    isDigitC_digitCharOf _ s1, isDigitC_digitCharOf _ s2,
    isDigitC_digitCharOf _ t1, isDigitC_digitCharOf _ t2, isDigitC_digitCharOf _ t3,
    dval_digitCharOf _ h1, dval_digitCharOf _ h2, dval_digitCharOf _ m1,
    dval_digitCharOf _ m2, dval_digitCharOf _ s1, dval_digitCharOf _ s2,
    dval_digitCharOf _ t1, dval_digitCharOf _ t2, dval_digitCharOf _ t3]
  rw [eh, em, es, ems]

theorem srt_to_ass_render (h m s ms : Nat)
    (hh : h < 100) (hm : m < 100) (hs : s < 100) (hms : ms < 1000) :
    srt_to_ass_time (renderSrtTime h m s ms) = some (renderAssTime h m s ms) := by
  have h1 : h / 10 < 10 := by omega
  have h2 : h % 10 < 10 := by omega
  have m1 : m / 10 < 10 := by omega
  have m2 : m % 10 < 10 := by omega
  have s1 : s / 10 < 10 := by omega
  have s2 : s % 10 < 10 := by omega
  have t1 : ms / 100 < 10 := by omega
  have t2 : ms / 10 % 10 < 10 := by omega
  have t3 : ms % 10 < 10 := by omega
  rw [srt_to_ass_time, replace_single]
  simp +decide [renderSrtTime, renderAssTime, renderTime, pad2, pad3,
    digitCharOf_map_comma _ h1, digitCharOf_map_comma _ h2,
    digitCharOf_map_comma _ m1, digitCharOf_map_comma _ m2,
    digitCharOf_map_comma _ s1, digitCharOf_map_comma _ s2,
    digitCharOf_map_comma _ t1, digitCharOf_map_comma _ t2,
    digitCharOf_map_comma _ t3]

theorem filterMap_isSome_map {α β : Type} (g : α → Option β) (dflt : β) :
    ∀ (l : List α), (∀ x ∈ l, (g x).isSome = true) →
      l.filterMap g = l.map (fun x => (g x).getD dflt) := by
  intro l
  induction l with
  | nil => intro _; simp
  | cons a t ih =>
    intro hall
    have ha := hall a (by simp)
    rcases hga : g a with _ | b
    · rw [hga] at ha; simp at ha
    · simp [List.filterMap_cons, hga, ih (fun x hx => hall x (by simp [hx]))]

/-- C8: subtitle timestamp conversion from the comma-delimited source format
to the dot-delimited target format preserves numeric value: the example
timestamp converts to a string numerically equal to 5.25 seconds, and every
well-formed fixed-width timestamp converts to the dot-delimited rendering of
the same components, whose numeric value in both formats is the same number
of seconds; and converting a well-formed subtitle file of N entries produces
exactly N dialogue entries in the same relative order (the emitted list is
the blockwise image of the block list). -/
theorem C8_subtitle_conversion (content : List Char) (h m s ms : Nat)
    (hall : ∀ bl ∈ splitOnL (("\n\n").data) content,
      (block_to_dialogue bl).isSome = true)
    (hh : h < 100) (hm : m < 100) (hs : s < 100) (hms : ms < 1000) :
    (srt_to_ass_time (("00:00:05,250").data) = some (("00:00:05.250").data)) ∧
    (srtTimeVal (("00:00:05,250").data) = some (21 / 4)) ∧
    (assTimeVal (("00:00:05.250").data) = some (21 / 4)) ∧
    (srt_to_ass_time (renderSrtTime h m s ms) = some (renderAssTime h m s ms)) ∧
    (srtTimeVal (renderSrtTime h m s ms) =
      some ((h : ℚ) * 3600 + (m : ℚ) * 60 + (s : ℚ) + (ms : ℚ) / 1000)) ∧
    (assTimeVal (renderAssTime h m s ms) =
      some ((h : ℚ) * 3600 + (m : ℚ) * 60 + (s : ℚ) + (ms : ℚ) / 1000)) ∧
    (dialogue_lines content =
      (splitOnL (("\n\n").data) content).map
        (fun bl => (block_to_dialogue bl).getD [])) ∧
    ((dialogue_lines content).length =
      (splitOnL (("\n\n").data) content).length) := by
  have hmap : dialogue_lines content =
      (splitOnL (("\n\n").data) content).map
        (fun bl => (block_to_dialogue bl).getD []) := by
    rw [dialogue_lines]
    exact filterMap_isSome_map block_to_dialogue [] _ hall
  refine ⟨by decide, ?_, ?_, srt_to_ass_render h m s ms hh hm hs hms,
    timeVal_render ',' h m s ms hh hm hs hms,
    timeVal_render '.' h m s ms hh hm hs hms, hmap, ?_⟩
  · rw [show (("00:00:05,250").data) = renderSrtTime 0 0 5 250 from by decide]
    rw [show srtTimeVal (renderSrtTime 0 0 5 250) =
        timeValWithSep ',' (renderTime ',' 0 0 5 250) from rfl]
    rw [timeVal_render ',' 0 0 5 250 (by omega) (by omega) (by omega) (by omega)]
    norm_num
  · rw [show (("00:00:05.250").data) = renderAssTime 0 0 5 250 from by decide]
    rw [show assTimeVal (renderAssTime 0 0 5 250) =
        timeValWithSep '.' (renderTime '.' 0 0 5 250) from rfl]
    rw [timeVal_render '.' 0 0 5 250 (by omega) (by omega) (by omega) (by omega)]
    norm_num
  · rw [hmap, List.length_map]

/-- Witness for C8 at a concrete two-entry subtitle file and the example
timestamp components. -/
theorem C8_subtitle_conversion_witness :
    (∀ bl ∈ splitOnL (("\n\n").data) c8_content,
      (block_to_dialogue bl).isSome = true) ∧
    ((dialogue_lines c8_content).length =
      (splitOnL (("\n\n").data) c8_content).length) :=
  ⟨by decide,
   (C8_subtitle_conversion c8_content 0 0 5 250 (by decide) (by decide)
      (by decide) (by decide) (by decide)).2.2.2.2.2.2.2⟩
